import Mathlib

/-!
Verification of the endpoint-resolution and tunnelling layer of the
repository (fabric).

The implemented code under `src/fabric/connection.py` (`Connection.__init__`,
lines 282-325) and `src/fabric/config.py` (`Config.__init__`, lines 95-108) is
embedded directly.  Several helpers the constructor calls
(`derive_shorthand`, `get_gateway`) and several methods (`open`, `close`,
`open_gateway`, `forward_local`, the `Tunnel`/`TunnelManager` run loops) have
no bodies in the source tree; those are modelled from the specification and
are marked as such in their doc comments.

Host strings are modelled as lists of characters so that the shorthand
splitting functions can be reasoned about by structural induction.
-/

namespace Fabric

/-- Character-list strings, the carrier for host strings and directives. -/
abbrev Str := List Char

/-- Number of occurrences of a character in a string. -/
def countChar (c : Char) : Str → Nat
  | [] => 0
  | x :: xs => (if x = c then 1 else 0) + countChar c xs

/-- Split at the first occurrence of `c`: returns the parts before and after
it, or `none` when `c` does not occur. -/
def breakAtFirst (c : Char) : Str → Option (Str × Str)
  | [] => none
  | x :: xs =>
    if x = c then some ([], xs)
    else
      match breakAtFirst c xs with
      | none => none
      | some (a, b) => some (x :: a, b)

/-- Split at the last occurrence of `c` (Python `rsplit(c, 1)` when the
separator occurs): parts before and after the last occurrence. -/
def splitAtLast (c : Char) (s : Str) : Option (Str × Str) :=
  match breakAtFirst c s.reverse with
  | none => none
  | some (a, b) => some (b.reverse, a.reverse)

/-- Numeric value of a decimal digit character. -/
def digitVal (c : Char) : Nat := c.toNat - ('0').toNat

/-- Value of a string of decimal digits. -/
def natOfDigits (s : Str) : Nat := s.foldl (fun n c => 10 * n + digitVal c) 0

/-- Parse a nonempty all-digit string as a natural number (the defined part
of Python `int`); `none` on the empty string or a non-digit. -/
def parseNat? (s : Str) : Option Nat :=
  if s ≠ [] ∧ s.all Char.isDigit then some (natOfDigits s) else none

/-- Result of shorthand extraction: optional user, host remainder, optional
port. -/
structure Shorthand where
  user : Option Str
  host : Str
  port : Option Nat
  deriving DecidableEq, Repr

/-- Modelled from the spec: `Connection.derive_shorthand` is called at
`connection.py` line 288 but has no definition anywhere under the source
tree.  Spec section 4.1 step 1: shorthand forms are `host`, `user@host`,
`host:port`, `user@host:port`; the user part is everything before the last
at-sign; if the remainder after user extraction contains more than one colon
character, port-shorthand extraction is skipped (IPv6 compatibility), while
user extraction is unaffected.  Empty components are treated as absent. -/
def derive_shorthand (s : Str) : Shorthand :=
  let p := match splitAtLast ('@') s with
    | some (u, hp) => (if u = [] then none else some u, hp)
    | none => (none, s)
  let u0 := p.1
  let hostport := p.2
  if countChar (':') hostport > 1 then
    { user := u0, host := hostport, port := none }
  else
    match splitAtLast (':') hostport with
    | some (h, q) => { user := u0, host := h, port := parseNat? q }
    | none => { user := u0, host := hostport, port := none }

/-- One ssh-config lookup result: the directive names consulted by the
resolver (`connection.py` lines 299-314 and spec section 6), each optionally
present with a string value. -/
structure SSHConfigEntry where
  hostname : Option Str := none
  user : Option Str := none
  port : Option Str := none
  forwardagent : Option Str := none
  connecttimeout : Option Str := none
  proxyjump : Option Str := none
  proxycommand : Option Str := none
  deriving DecidableEq, Repr

/-- The layered-configuration defaults consumed by resolution:
`config.user`, `config.port`, `config.forward_agent`,
`config.timeouts.connect` (spec section 6, Configuration collaborator). -/
structure FabricData where
  user : Str
  port : Nat
  forward_agent : Bool
  connect_timeout : Option Nat
  deriving DecidableEq, Repr

/-- The ssh-config lookup table of a config object that was built with no
loaded ssh data: every alias resolves to an empty directive set. -/
def emptySsh : Str → SSHConfigEntry := fun _ => {}

/-- A runtime config object as seen by `Connection.__init__`: either a plain
invoke config (no ssh data) or fabric's `Config` subclass, which carries a
`base_ssh_config` lookup table (`config.py` lines 95-108). -/
inductive ConfigObj where
  | invoke (d : FabricData)
  | fabric (d : FabricData) (ssh : Str → SSHConfigEntry)

/-- The layered defaults of a config object. -/
def ConfigObj.data : ConfigObj → FabricData
  | .invoke d => d
  | .fabric d _ => d

/-- The `base_ssh_config.lookup` table of a config object; a plain invoke
config has none, which we model as the empty table. -/
def ConfigObj.sshLookup : ConfigObj → (Str → SSHConfigEntry)
  | .invoke _ => emptySsh
  | .fabric _ s => s

/-- `isinstance(config, Config)` for fabric's `Config` subclass. -/
def ConfigObj.isFabric : ConfigObj → Bool
  | .invoke _ => false
  | .fabric _ _ => true

/-- Embeds `connection.py` lines 283-286: a `None` config argument becomes a
fresh fabric `Config()` (its defaults and ssh data are the ambient ones,
`dflt`/`dfltSsh`); a config that is not a fabric `Config` instance is cloned
into one (`config.clone(into=Config)`), keeping its defaults; the fresh
`Config.__init__` starts from an empty `SSHConfig()` (`config.py` line 104;
the subsequent `load_ssh_config` file loading has no body in the source). -/
def normalizeConfig (dflt : FabricData) (dfltSsh : Str → SSHConfigEntry) :
    Option ConfigObj → ConfigObj
  | none => .fabric dflt dfltSsh
  | some (.invoke d) => .fabric d emptySsh
  | some (.fabric d s) => .fabric d s

/-- The gateway value stored on a connection: a nested connection reference
(`ProxyJump` style, identified here by its host expression), a shell command
string (`ProxyCommand` style), or the explicit disable sentinel
(`gateway=False` in the source docstring, the literal "disable" sentinel of
the spec). -/
inductive GatewayVal where
  | conn (host : Str)
  | cmd (s : Str)
  | disable
  deriving DecidableEq, Repr

/-- Modelled from the spec: `Connection.get_gateway` is called at
`connection.py` line 306 but has no definition anywhere under the source
tree.  Spec section 4.1 step 8: with no explicit argument the gateway is
derived from the ssh-config `proxyjump`/`proxycommand` directives if
present, otherwise null. -/
def get_gateway (e : SSHConfigEntry) : Option GatewayVal :=
  match e.proxyjump with
  | some pj => some (.conn pj)
  | none =>
    match e.proxycommand with
    | some pc => some (.cmd pc)
    | none => none

/-- The gateway actually used when opening: the stored disable sentinel
(`gateway=False`) behaves as no gateway at all (spec section 4.1 step 8: the
sentinel forces null). -/
def effectiveGateway : Option GatewayVal → Option GatewayVal
  | some .disable => none
  | g => g

/-- Errors raised synchronously by `Connection.__init__`: `ValueError`
(shorthand/kwarg ambiguity, `int` coercion failure) and `KeyError` (a
`forwardagent` directive outside the yes/no map, lines 310-311). -/
inductive ResolveError where
  | valueError (msg : String)
  | keyError (key : Str)
  deriving DecidableEq, Repr

/-- The `ValueError` message of `connection.py` line 290, with the field
name formatted in. -/
def ambigMsg (field : String) : String :=
  "You supplied the " ++ field ++ " via both shorthand and kwarg! Please pick one."

/-- Embeds `connection.py` lines 290-298: a field supplied via both
shorthand and keyword argument raises `ValueError`; otherwise the shorthand
value, when present, becomes the working value. -/
def mergeShorthand (field : String) (shv argv : Option α) :
    Except ResolveError (Option α) :=
  match shv with
  | some v =>
    match argv with
    | some _ => .error (.valueError (ambigMsg field))
    | none => .ok (some v)
  | none => .ok argv

/-- Embeds `connection.py` line 304, `user or self.ssh_config.get('user',
self.config.user)`: an absent (or falsy empty) working user falls back to
the ssh-config `user` directive, then to the configuration default. -/
def resolveUser (user : Option Str) (e : SSHConfigEntry) (d : FabricData) : Str :=
  let fallback := match e.user with
    | some u => u
    | none => d.user
  match user with
  | some u => if u = [] then fallback else u
  | none => fallback

/-- Embeds the fallback of `connection.py` line 305,
`int(self.ssh_config.get('port', self.config.port))`: the ssh-config `port`
directive coerced to an integer (`ValueError` when not numeric), else the
configuration default. -/
def portFromConfig (e : SSHConfigEntry) (d : FabricData) : Except ResolveError Nat :=
  match e.port with
  | some s =>
    match parseNat? s with
    | some n => .ok n
    | none => .error (.valueError "invalid literal for int() with base 10")
  | none => .ok d.port

/-- Embeds `connection.py` line 305, `port or ...`: a truthy working port
(present and nonzero) wins; otherwise the lazily evaluated fallback. -/
def resolvePort (port : Option Nat) (e : SSHConfigEntry) (d : FabricData) :
    Except ResolveError Nat :=
  match port with
  | some p => if p = 0 then portFromConfig e d else .ok p
  | none => portFromConfig e d

/-- Embeds `connection.py` lines 307-312: with no explicit argument the
configuration default applies, overridden by the `forwardagent` directive
through the partial map yes/no; any other directive value raises `KeyError`. -/
def resolveForwardAgent (fa : Option Bool) (e : SSHConfigEntry) (d : FabricData) :
    Except ResolveError Bool :=
  match fa with
  | some b => .ok b
  | none =>
    match e.forwardagent with
    | some s =>
      if s = ("yes").data then .ok true
      else if s = ("no").data then .ok false
      else .error (.keyError s)
    | none => .ok d.forward_agent

/-- Embeds `connection.py` lines 313-317: with no explicit argument the
`connecttimeout` directive applies (coerced to an integer), else the
configuration default `timeouts.connect`; a null stays null. -/
def resolveConnectTimeout (ct : Option Nat) (e : SSHConfigEntry) (d : FabricData) :
    Except ResolveError (Option Nat) :=
  match ct with
  | some t => .ok (some t)
  | none =>
    match e.connecttimeout with
    | some s =>
      match parseNat? s with
      | some n => .ok (some n)
      | none => .error (.valueError "invalid literal for int() with base 10")
    | none => .ok d.connect_timeout

/-- Embeds `connection.py` lines 301-303: the working host, rewritten to the
`hostname` directive of the ssh-config lookup when that directive is
present. -/
def resolveHost (e : SSHConfigEntry) (h : Str) : Str :=
  match e.hostname with
  | some hn => hn
  | none => h

/-- Embeds `connection.py` line 306, `gateway if gateway is not None else
self.get_gateway()`: an explicit gateway argument (including the disable
sentinel) wins; otherwise the ssh-config derived gateway. -/
def resolveGateway (gw : Option GatewayVal) (e : SSHConfigEntry) : Option GatewayVal :=
  match gw with
  | some g => some g
  | none => get_gateway e

/-- The resolved connection state produced by `Connection.__init__`. -/
structure Conn where
  host : Str
  original_host : Str
  user : Str
  port : Nat
  gateway : Option GatewayVal
  forward_agent : Bool
  connect_timeout : Option Nat
  config : ConfigObj

/-- Embeds `Connection.__init__` (`connection.py` lines 282-317): config
normalization, shorthand extraction, shorthand/kwarg ambiguity checks,
ssh-config lookup of the post-shorthand host, `hostname` rewriting with
`original_host` retention, and user/port/gateway/forward-agent/timeout
resolution.  Errors are raised synchronously and no connection state is
produced.  The `connect_kwargs` resolution (line 318, whose helper has no
body in the source) and the paramiko client fields are outside the resolved
endpoint state and are not modelled. -/
def resolve (dflt : FabricData) (dfltSsh : Str → SSHConfigEntry) (host0 : Str)
    (user : Option Str) (port : Option Nat) (config : Option ConfigObj)
    (gateway : Option GatewayVal) (forward_agent : Option Bool)
    (connect_timeout : Option Nat) : Except ResolveError Conn :=
  let cfg := normalizeConfig dflt dfltSsh config
  let sh := derive_shorthand host0
  match mergeShorthand "user" sh.user user with
  | .error e => .error e
  | .ok user' =>
    match mergeShorthand "port" sh.port port with
    | .error e => .error e
    | .ok port' =>
      let ssh_config := cfg.sshLookup sh.host
      let original_host := sh.host
      let host := resolveHost ssh_config sh.host
      match resolvePort port' ssh_config cfg.data with
      | .error e => .error e
      | .ok rport =>
        match resolveForwardAgent forward_agent ssh_config cfg.data with
        | .error e => .error e
        | .ok rfa =>
          match resolveConnectTimeout connect_timeout ssh_config cfg.data with
          | .error e => .error e
          | .ok rct =>
            .ok { host := host
                  original_host := original_host
                  user := resolveUser user' ssh_config cfg.data
                  port := rport
                  gateway := resolveGateway gateway ssh_config
                  forward_agent := rfa
                  connect_timeout := rct
                  config := cfg }

/-- Connection lifecycle state (spec section 4.3): whether the transport is
open, how many handshakes have been performed so far (instrumentation for
the no-duplicate-handshake property), and whether a dependent auxiliary
(sftp) session is open. -/
structure Lifecycle where
  opened : Bool
  handshakes : Nat
  sftpOpen : Bool
  deriving DecidableEq, Repr

/-- Modelled from the spec: `Connection.open` has no body in the source
(`connection.py` lines 360-383 are a docstring over a stub).  Spec section
4.3: `open()` returns immediately when already Open; otherwise it performs
the transport handshake (counted here) and transitions to Open. -/
def lcOpen (s : Lifecycle) : Lifecycle :=
  if s.opened then s
  else { opened := true, handshakes := s.handshakes + 1, sftpOpen := s.sftpOpen }

/-- Modelled from the spec: `Connection.close` has no body in the source
(`connection.py` lines 398-410 are a docstring over a stub).  Spec section
4.3: when Open, close any dependent auxiliary session first, then the
transport, transitioning to Closed; a no-op when already Closed. -/
def lcClose (s : Lifecycle) : Lifecycle :=
  if s.opened then { opened := false, handshakes := s.handshakes, sftpOpen := false }
  else s

/-- The eventual outcome of one Tunnel worker of a forwarding session:
clean termination or a captured exception (spec sections 4.4-4.5). -/
inductive WorkerOutcome where
  | ok
  | err (e : String)
  deriving DecidableEq, Repr

/-- Modelled from the spec: the `Tunnel`/`TunnelManager` run loops have no
bodies in the source (`tunnels.py` keeps only the constructors).  Spec
section 4.4: a worker exception is captured into the session's shared error
collection rather than propagated at the point of occurrence; the capture
step itself is total. -/
def captureWorker (captured : List String) (w : WorkerOutcome) : List String :=
  match w with
  | .ok => captured
  | .err e => captured ++ [e]

/-- The errors captured over a whole forwarding session, in worker order. -/
def workerErrors (ws : List WorkerOutcome) : List String :=
  ws.foldl captureWorker []

/-- Modelled from the spec: session stop (`stopForward` / forwarding scope
exit; `Connection.forward_local` has no body in the source).  Spec sections
4.4 and 7: after joining the workers, all captured exceptions are raised
together as a single aggregate failure, carrying every worker error, not
just the first; with no captured errors the stop returns cleanly. -/
def stopForward (ws : List WorkerOutcome) : Except (List String) Unit :=
  match workerErrors ws with
  | [] => .ok ()
  | errs => .error errs

/-! ### Support lemmas on the string helpers -/

theorem breakAtFirst_eq_none {c : Char} : ∀ {s : Str}, c ∉ s → breakAtFirst c s = none
  | [], _ => rfl
  | x :: xs, h => by
    have hx : ¬ x = c := fun he => h (he ▸ List.mem_cons_self x xs)
    have hxs : c ∉ xs := fun hm => h (List.mem_cons_of_mem x hm)
    simp [breakAtFirst, hx, breakAtFirst_eq_none hxs]

theorem breakAtFirst_append {c : Char} : ∀ {y : Str} (x : Str), c ∉ y →
    breakAtFirst c (y ++ c :: x) = some (y, x)
  | [], x, _ => by simp [breakAtFirst]
  | a :: y, x, h => by
    have ha : ¬ a = c := fun he => h (he ▸ List.mem_cons_self a y)
    have hy : c ∉ y := fun hm => h (List.mem_cons_of_mem a hm)
    simp [breakAtFirst, ha, breakAtFirst_append x hy]

theorem splitAtLast_eq_none {c : Char} {s : Str} (h : c ∉ s) :
    splitAtLast c s = none := by
  have hr : c ∉ s.reverse := by simpa using h
  simp [splitAtLast, breakAtFirst_eq_none hr]

theorem splitAtLast_append {c : Char} {u h : Str} (hh : c ∉ h) :
    splitAtLast c (u ++ c :: h) = some (u, h) := by
  have hrev : (u ++ c :: h).reverse = h.reverse ++ c :: u.reverse := by
    simp [List.reverse_append]
  have hr : c ∉ h.reverse := by simpa using hh
  simp [splitAtLast, hrev, breakAtFirst_append _ hr]

theorem countChar_eq_zero {c : Char} : ∀ {s : Str}, c ∉ s → countChar c s = 0
  | [], _ => rfl
  | x :: xs, h => by
    have hx : ¬ x = c := fun he => h (he ▸ List.mem_cons_self x xs)
    have hxs : c ∉ xs := fun hm => h (List.mem_cons_of_mem x hm)
    simp [countChar, hx, countChar_eq_zero hxs]

theorem countChar_append (c : Char) : ∀ (s t : Str),
    countChar c (s ++ t) = countChar c s + countChar c t
  | [], t => by simp [countChar]
  | x :: xs, t => by
    simp [countChar, countChar_append c xs t]
    omega

theorem not_mem_of_all_digit {c : Char} {s : Str} (hall : s.all Char.isDigit = true)
    (hc : Char.isDigit c = false) : c ∉ s := by
  intro hm
  have hd := List.all_eq_true.mp hall c hm
  rw [hc] at hd
  exact Bool.false_ne_true hd

theorem parseNat?_eq_some {s : Str} (hne : s ≠ []) (hall : s.all Char.isDigit = true) :
    parseNat? s = some (natOfDigits s) := by
  simp [parseNat?, hne, hall]

/-! ### Characterization of shorthand extraction -/

theorem derive_shorthand_plain {h : Str} (h1 : ('@') ∉ h) (h2 : (':') ∉ h) :
    derive_shorthand h = { user := none, host := h, port := none } := by
  simp [derive_shorthand, splitAtLast_eq_none h1, splitAtLast_eq_none h2,
    countChar_eq_zero h2]

theorem derive_shorthand_user {u h : Str} (hu : u ≠ []) (h1 : ('@') ∉ h)
    (h2 : (':') ∉ h) :
    derive_shorthand (u ++ ('@') :: h) = { user := some u, host := h, port := none } := by
  simp [derive_shorthand, splitAtLast_append h1, hu, splitAtLast_eq_none h2,
    countChar_eq_zero h2]

theorem derive_shorthand_port {h p : Str} (h1 : ('@') ∉ h) (h2 : (':') ∉ h)
    (hp : p ≠ []) (hd : p.all Char.isDigit = true) :
    derive_shorthand (h ++ (':') :: p) =
      { user := none, host := h, port := some (natOfDigits p) } := by
  have hpa : ('@') ∉ p := not_mem_of_all_digit hd (by decide)
  have hpc : (':') ∉ p := not_mem_of_all_digit hd (by decide)
  have hno : ('@') ∉ h ++ (':') :: p := by
    intro hm
    rcases List.mem_append.mp hm with hm | hm
    · exact h1 hm
    · rcases List.mem_cons.mp hm with hm | hm
      · exact absurd hm (by decide)
      · exact hpa hm
  have hc : countChar (':') (h ++ (':') :: p) = 1 := by
    simp [countChar_append, countChar, countChar_eq_zero h2, countChar_eq_zero hpc]
  simp [derive_shorthand, splitAtLast_eq_none hno, hc, splitAtLast_append hpc,
    parseNat?_eq_some hp hd]

theorem derive_shorthand_user_port {u h p : Str} (hu : u ≠ []) (h1 : ('@') ∉ h)
    (h2 : (':') ∉ h) (hp : p ≠ []) (hd : p.all Char.isDigit = true) :
    derive_shorthand (u ++ ('@') :: (h ++ (':') :: p)) =
      { user := some u, host := h, port := some (natOfDigits p) } := by
  have hpa : ('@') ∉ p := not_mem_of_all_digit hd (by decide)
  have hpc : (':') ∉ p := not_mem_of_all_digit hd (by decide)
  have hno : ('@') ∉ h ++ (':') :: p := by
    intro hm
    rcases List.mem_append.mp hm with hm | hm
    · exact h1 hm
    · rcases List.mem_cons.mp hm with hm | hm
      · exact absurd hm (by decide)
      · exact hpa hm
  have hc : countChar (':') (h ++ (':') :: p) = 1 := by
    simp [countChar_append, countChar, countChar_eq_zero h2, countChar_eq_zero hpc]
  simp [derive_shorthand, splitAtLast_append hno, hu, hc, splitAtLast_append hpc,
    parseNat?_eq_some hp hd]

theorem derive_shorthand_multicolon {hp : Str} (h1 : ('@') ∉ hp)
    (hc : countChar (':') hp > 1) :
    derive_shorthand hp = { user := none, host := hp, port := none } := by
  simp [derive_shorthand, splitAtLast_eq_none h1, hc]

theorem derive_shorthand_user_multicolon {u hp : Str} (hu : u ≠ [])
    (h1 : ('@') ∉ hp) (hc : countChar (':') hp > 1) :
    derive_shorthand (u ++ ('@') :: hp) =
      { user := some u, host := hp, port := none } := by
  simp [derive_shorthand, splitAtLast_append h1, hu, hc]

/-! ### Inversion of successful resolution -/

theorem mergeShorthand_none_right {α : Type} (f : String) (shv : Option α) :
    mergeShorthand f shv none = .ok shv := by
  cases shv <;> rfl

theorem mergeShorthand_ok_some_right {α : Type} {f : String} {shv v : Option α}
    {a : α} (h : mergeShorthand f shv (some a) = .ok v) :
    shv = none ∧ v = some a := by
  cases shv with
  | none => exact ⟨rfl, by simpa [mergeShorthand] using h.symm⟩
  | some b => simp [mergeShorthand] at h

theorem mergeShorthand_ok_some_left {α : Type} {f : String} {argv v : Option α}
    {a : α} (h : mergeShorthand f (some a) argv = .ok v) :
    argv = none ∧ v = some a := by
  cases argv with
  | none => exact ⟨rfl, by simpa [mergeShorthand] using h.symm⟩
  | some b => simp [mergeShorthand] at h

theorem resolvePort_ok_some {p : Nat} {e : SSHConfigEntry} {d : FabricData}
    {r : Nat} (hp : p ≠ 0) (h : resolvePort (some p) e d = .ok r) : r = p := by
  simp [resolvePort, hp] at h
  exact h.symm

theorem resolvePort_none_dir {e : SSHConfigEntry} {d : FabricData} {s : Str}
    {n r : Nat} (he : e.port = some s) (hn : parseNat? s = some n)
    (h : resolvePort none e d = .ok r) : r = n := by
  simp [resolvePort, portFromConfig, he, hn] at h
  exact h.symm

theorem resolvePort_none_none {e : SSHConfigEntry} {d : FabricData} {r : Nat}
    (he : e.port = none) (h : resolvePort none e d = .ok r) : r = d.port := by
  simp [resolvePort, portFromConfig, he] at h
  exact h.symm

/-- Any successful resolution decomposes into successful merge and
field-resolution steps, and the resulting state is exactly the record built
from them. -/
theorem resolve_ok_inv {dflt : FabricData} {dsh : Str → SSHConfigEntry}
    {host0 : Str} {user : Option Str} {port : Option Nat}
    {config : Option ConfigObj} {gw : Option GatewayVal} {fa : Option Bool}
    {ct : Option Nat} {c : Conn}
    (hok : resolve dflt dsh host0 user port config gw fa ct = .ok c) :
    ∃ user' port' rport rfa rct,
      mergeShorthand "user" (derive_shorthand host0).user user = .ok user' ∧
      mergeShorthand "port" (derive_shorthand host0).port port = .ok port' ∧
      resolvePort port'
        ((normalizeConfig dflt dsh config).sshLookup (derive_shorthand host0).host)
        (normalizeConfig dflt dsh config).data = .ok rport ∧
      resolveForwardAgent fa
        ((normalizeConfig dflt dsh config).sshLookup (derive_shorthand host0).host)
        (normalizeConfig dflt dsh config).data = .ok rfa ∧
      resolveConnectTimeout ct
        ((normalizeConfig dflt dsh config).sshLookup (derive_shorthand host0).host)
        (normalizeConfig dflt dsh config).data = .ok rct ∧
      c = { host := resolveHost
              ((normalizeConfig dflt dsh config).sshLookup (derive_shorthand host0).host)
              (derive_shorthand host0).host
            original_host := (derive_shorthand host0).host
            user := resolveUser user'
              ((normalizeConfig dflt dsh config).sshLookup (derive_shorthand host0).host)
              (normalizeConfig dflt dsh config).data
            port := rport
            gateway := resolveGateway gw
              ((normalizeConfig dflt dsh config).sshLookup (derive_shorthand host0).host)
            forward_agent := rfa
            connect_timeout := rct
            config := normalizeConfig dflt dsh config } := by
  simp only [resolve] at hok
  split at hok
  · simp at hok
  next user' hu =>
    split at hok
    · simp at hok
    next port' hp =>
      split at hok
      · simp at hok
      next rport hrp =>
        split at hok
        · simp at hok
        next rfa' hrfa =>
          split at hok
          · simp at hok
          next rct' hrct =>
            injection hok with hok
            exact ⟨user', port', rport, rfa', rct', hu, hp, hrp, hrfa, hrct, hok.symm⟩

/-! ### Concrete fixtures for witnesses -/

/-- A concrete set of configuration defaults. -/
def dflt0 : FabricData :=
  { user := ("root").data, port := 22, forward_agent := false, connect_timeout := none }

/-! ### Claim theorems -/

/-- C1: whenever the host shorthand supplies a user and an explicit user
argument is also given, or the shorthand supplies a port and an explicit
port argument is also given, resolution fails synchronously with the
configuration-ambiguity `ValueError` of `connection.py` lines 290-298; the
resolver returns the error and produces no resolved connection state. -/
theorem ambiguous_shorthand_raises
    (dflt : FabricData) (dsh : Str → SSHConfigEntry) (host0 : Str)
    (user : Option Str) (port : Option Nat) (config : Option ConfigObj)
    (gw : Option GatewayVal) (fa : Option Bool) (ct : Option Nat) :
    (∀ su au, (derive_shorthand host0).user = some su → user = some au →
      resolve dflt dsh host0 user port config gw fa ct =
        .error (.valueError (ambigMsg "user"))) ∧
    (∀ sp ap, (derive_shorthand host0).port = some sp → port = some ap →
      resolve dflt dsh host0 user port config gw fa ct =
          .error (.valueError (ambigMsg "user")) ∨
      resolve dflt dsh host0 user port config gw fa ct =
          .error (.valueError (ambigMsg "port"))) := by
  constructor
  · intro su au h1 h2
    simp only [resolve]
    rw [h1, h2]
    simp [mergeShorthand]
  · intro sp ap h1 h2
    cases hu : (derive_shorthand host0).user with
    | some su =>
      cases huser : user with
      | some au =>
        left
        simp [resolve, mergeShorthand, hu, huser]
      | none =>
        right
        simp [resolve, mergeShorthand, hu, huser, h1, h2]
    | none =>
      right
      simp [resolve, mergeShorthand, hu, h1, h2]

theorem ambiguous_shorthand_raises_witness :
    resolve dflt0 emptySsh ("a@b").data (some (("x").data)) none none none none none =
      .error (.valueError (ambigMsg "user")) ∧
    (resolve dflt0 emptySsh ("b:2200").data none (some 22) none none none none =
        .error (.valueError (ambigMsg "user")) ∨
     resolve dflt0 emptySsh ("b:2200").data none (some 22) none none none none =
        .error (.valueError (ambigMsg "port"))) := by
  constructor
  · exact (ambiguous_shorthand_raises dflt0 emptySsh (("a@b").data)
      (some (("x").data)) none none none none none).1
      (("a").data) (("x").data) (by decide) rfl
  · exact (ambiguous_shorthand_raises dflt0 emptySsh (("b:2200").data)
      none (some 22) none none none none).2 2200 22 (by decide) rfl

/-- C2: every shorthand string of the forms host, user@host, host:port and
user@host:port is split into exactly its components, and whenever the part
after user extraction contains more than one colon, port extraction is
skipped while user extraction is unaffected. -/
theorem shorthand_forms :
    (∀ h : Str, ('@') ∉ h → (':') ∉ h →
      derive_shorthand h = { user := none, host := h, port := none }) ∧
    (∀ u h : Str, u ≠ [] → ('@') ∉ h → (':') ∉ h →
      derive_shorthand (u ++ ('@') :: h) =
        { user := some u, host := h, port := none }) ∧
    (∀ h p : Str, ('@') ∉ h → (':') ∉ h → p ≠ [] → p.all Char.isDigit = true →
      derive_shorthand (h ++ (':') :: p) =
        { user := none, host := h, port := some (natOfDigits p) }) ∧
    (∀ u h p : Str, u ≠ [] → ('@') ∉ h → (':') ∉ h → p ≠ [] →
        p.all Char.isDigit = true →
      derive_shorthand (u ++ ('@') :: (h ++ (':') :: p)) =
        { user := some u, host := h, port := some (natOfDigits p) }) ∧
    (∀ hp : Str, ('@') ∉ hp → countChar (':') hp > 1 →
      derive_shorthand hp = { user := none, host := hp, port := none }) ∧
    (∀ u hp : Str, u ≠ [] → ('@') ∉ hp → countChar (':') hp > 1 →
      derive_shorthand (u ++ ('@') :: hp) =
        { user := some u, host := hp, port := none }) :=
  ⟨fun _ h1 h2 => derive_shorthand_plain h1 h2,
   fun _ _ hu h1 h2 => derive_shorthand_user hu h1 h2,
   fun _ _ h1 h2 hp hd => derive_shorthand_port h1 h2 hp hd,
   fun _ _ _ hu h1 h2 hp hd => derive_shorthand_user_port hu h1 h2 hp hd,
   fun _ h1 hc => derive_shorthand_multicolon h1 hc,
   fun _ _ hu h1 hc => derive_shorthand_user_multicolon hu h1 hc⟩

theorem shorthand_forms_witness :
    derive_shorthand (("admin@db01:2222").data) =
      { user := some (("admin").data), host := ("db01").data, port := some 2222 } ∧
    derive_shorthand (("u@fe80::1").data) =
      { user := some (("u").data), host := ("fe80::1").data, port := none } := by
  constructor
  · have h := shorthand_forms.2.2.2.1 (("admin").data) (("db01").data)
      (("2222").data) (by decide) (by decide) (by decide) (by decide) (by decide)
    rw [show (("admin@db01:2222").data) =
      ("admin").data ++ ('@') :: (("db01").data ++ (':') :: ("2222").data) from rfl]
    rw [h]
    decide
  · have h := shorthand_forms.2.2.2.2.2 (("u").data) (("fe80::1").data)
      (by decide) (by decide) (by decide)
    rw [show (("u@fe80::1").data) = ("u").data ++ ('@') :: ("fe80::1").data from rfl]
    rw [h]

/-- An ssh-config table mapping the alias myalias to a hostname directive
naming realhost. -/
def ssh3 : Str → SSHConfigEntry := fun h =>
  if h = ("myalias").data then { hostname := some (("realhost").data) } else {}

/-- C3: when the ssh-config lookup of the post-shorthand host yields a
hostname directive, the resolved host attribute equals that directive value
and original_host equals the alias that was looked up (`connection.py`
lines 299-303). -/
theorem hostname_directive_rewrites
    (dflt : FabricData) (dsh : Str → SSHConfigEntry) (host0 : Str)
    (user : Option Str) (port : Option Nat) (config : Option ConfigObj)
    (gw : Option GatewayVal) (fa : Option Bool) (ct : Option Nat)
    (hn : Str) (c : Conn)
    (hhn : ((normalizeConfig dflt dsh config).sshLookup
        (derive_shorthand host0).host).hostname = some hn)
    (hok : resolve dflt dsh host0 user port config gw fa ct = .ok c) :
    c.host = hn ∧ c.original_host = (derive_shorthand host0).host := by
  obtain ⟨u', p', rp, rf, rc, -, -, -, -, -, hc⟩ := resolve_ok_inv hok
  subst hc
  simp [resolveHost, hhn]

theorem hostname_directive_rewrites_witness :
    (resolve dflt0 ssh3 (("myalias").data) none none none none none none).map
        Conn.host = Except.ok (("realhost").data) ∧
    (resolve dflt0 ssh3 (("myalias").data) none none none none none none).map
        Conn.original_host = Except.ok (("myalias").data) := by
  obtain ⟨c, hok⟩ : ∃ c,
      resolve dflt0 ssh3 (("myalias").data) none none none none none none =
        .ok c := ⟨_, rfl⟩
  have h := hostname_directive_rewrites dflt0 ssh3 (("myalias").data)
    none none none none none none (("realhost").data) c (by decide) hok
  constructor
  · rw [hok]
    simp [Except.map, h.1]
  · rw [hok]
    simp [Except.map, h.2]
    decide

/-- C4 as stated is false on the code: `connection.py` line 289 reassigns
the working host to the post-shorthand host before line 300 stores it as
original_host, so for the caller string admin@db01:2222 the stored
original_host is db01, not the full string with its shorthand. -/
theorem original_host_counterexample :
    (resolve dflt0 emptySsh (("admin@db01:2222").data) none none none none
        none none).map Conn.original_host ≠
      Except.ok (("admin@db01:2222").data) := by
  intro h
  have h2 : (resolve dflt0 emptySsh (("admin@db01:2222").data) none none none
      none none none).map Conn.original_host = Except.ok (("db01").data) := rfl
  rw [h2] at h
  injection h with h
  exact absurd h (by decide)

/-- C4 amended: original_host equals the host component left after
shorthand extraction (user@ and :port stripped), before any ssh-config
hostname rewrite; the scenario admin@db01:2222 with no config or ssh-config
involvement yields host db01, user admin, port 2222 and original_host
db01. -/
theorem original_host_is_post_shorthand
    (dflt : FabricData) (dsh : Str → SSHConfigEntry) (host0 : Str)
    (user : Option Str) (port : Option Nat) (config : Option ConfigObj)
    (gw : Option GatewayVal) (fa : Option Bool) (ct : Option Nat) (c : Conn)
    (hok : resolve dflt dsh host0 user port config gw fa ct = .ok c) :
    c.original_host = (derive_shorthand host0).host := by
  obtain ⟨u', p', rp, rf, rc, -, -, -, -, -, hc⟩ := resolve_ok_inv hok
  subst hc
  rfl

theorem original_host_is_post_shorthand_witness :
    (resolve dflt0 emptySsh (("admin@db01:2222").data) none none none none
        none none).map Conn.original_host = Except.ok (("db01").data) ∧
    (resolve dflt0 emptySsh (("admin@db01:2222").data) none none none none
        none none).map Conn.host = Except.ok (("db01").data) ∧
    (resolve dflt0 emptySsh (("admin@db01:2222").data) none none none none
        none none).map Conn.user = Except.ok (("admin").data) ∧
    (resolve dflt0 emptySsh (("admin@db01:2222").data) none none none none
        none none).map Conn.port = Except.ok 2222 := by
  obtain ⟨c, hok⟩ : ∃ c,
      resolve dflt0 emptySsh (("admin@db01:2222").data) none none none none
        none none = .ok c := ⟨_, rfl⟩
  have h := original_host_is_post_shorthand dflt0 emptySsh
    (("admin@db01:2222").data) none none none none none none c hok
  refine ⟨?_, by rfl, by rfl, by rfl⟩
  rw [hok]
  simp [Except.map, h]
  decide

/-- An ssh-config table giving the host h a user directive and a port
directive. -/
def ssh5 : Str → SSHConfigEntry := fun h =>
  if h = ("h").data then
    { user := some (("cfguser").data), port := some (("2200").data) }
  else {}

/-- C5: the resolved user follows the precedence chain explicit argument,
then shorthand, then ssh-config user directive, then configuration default;
the resolved port follows explicit argument, then shorthand, then
ssh-config port directive coerced to an integer, then configuration default
(`connection.py` lines 304-305; explicit and shorthand never coexist, the
ambiguity check having already passed on a successful resolution, and the
truthiness test of the Python or-chain reads present nonempty and nonzero
values). -/
theorem user_port_precedence
    (dflt : FabricData) (dsh : Str → SSHConfigEntry) (host0 : Str)
    (user : Option Str) (port : Option Nat) (config : Option ConfigObj)
    (gw : Option GatewayVal) (fa : Option Bool) (ct : Option Nat) (c : Conn)
    (hok : resolve dflt dsh host0 user port config gw fa ct = .ok c) :
    (∀ u, user = some u → u ≠ [] → c.user = u) ∧
    (user = none → ∀ u, (derive_shorthand host0).user = some u → u ≠ [] →
      c.user = u) ∧
    (user = none → (derive_shorthand host0).user = none →
      ∀ u, ((normalizeConfig dflt dsh config).sshLookup
          (derive_shorthand host0).host).user = some u →
        c.user = u) ∧
    (user = none → (derive_shorthand host0).user = none →
      ((normalizeConfig dflt dsh config).sshLookup
          (derive_shorthand host0).host).user = none →
      c.user = (normalizeConfig dflt dsh config).data.user) ∧
    (∀ p, port = some p → p ≠ 0 → c.port = p) ∧
    (port = none → ∀ p, (derive_shorthand host0).port = some p → p ≠ 0 →
      c.port = p) ∧
    (port = none → (derive_shorthand host0).port = none →
      ∀ s n, ((normalizeConfig dflt dsh config).sshLookup
          (derive_shorthand host0).host).port = some s →
        parseNat? s = some n → c.port = n) ∧
    (port = none → (derive_shorthand host0).port = none →
      ((normalizeConfig dflt dsh config).sshLookup
          (derive_shorthand host0).host).port = none →
      c.port = (normalizeConfig dflt dsh config).data.port) := by
  obtain ⟨u', p', rp, rf, rc, hu, hp, hrp, -, -, hc⟩ := resolve_ok_inv hok
  subst hc
  refine ⟨?_, ?_, ?_, ?_, ?_, ?_, ?_, ?_⟩
  · intro u h hne
    subst h
    obtain ⟨-, hu'⟩ := mergeShorthand_ok_some_right hu
    subst hu'
    simp [resolveUser, hne]
  · intro h u hsh hne
    subst h
    rw [mergeShorthand_none_right] at hu
    injection hu with hu
    subst hu
    rw [hsh]
    simp [resolveUser, hne]
  · intro h hsh u heu
    subst h
    rw [mergeShorthand_none_right] at hu
    injection hu with hu
    subst hu
    rw [hsh]
    simp [resolveUser, heu]
  · intro h hsh heu
    subst h
    rw [mergeShorthand_none_right] at hu
    injection hu with hu
    subst hu
    rw [hsh]
    simp [resolveUser, heu]
  · intro p h hne
    subst h
    obtain ⟨-, hp'⟩ := mergeShorthand_ok_some_right hp
    subst hp'
    exact resolvePort_ok_some hne hrp
  · intro h p hsh hne
    subst h
    rw [mergeShorthand_none_right] at hp
    injection hp with hp
    subst hp
    rw [hsh] at hrp
    exact resolvePort_ok_some hne hrp
  · intro h hsh s n hes hn
    subst h
    rw [mergeShorthand_none_right] at hp
    injection hp with hp
    subst hp
    rw [hsh] at hrp
    exact resolvePort_none_dir hes hn hrp
  · intro h hsh hes
    subst h
    rw [mergeShorthand_none_right] at hp
    injection hp with hp
    subst hp
    rw [hsh] at hrp
    exact resolvePort_none_none hes hrp

theorem user_port_precedence_witness :
    (resolve dflt0 ssh5 (("admin@h").data) none none none none none none).map
        Conn.user = Except.ok (("admin").data) ∧
    (resolve dflt0 ssh5 (("admin@h").data) none none none none none none).map
        Conn.port = Except.ok 2200 := by
  obtain ⟨c, hok⟩ : ∃ c,
      resolve dflt0 ssh5 (("admin@h").data) none none none none none none =
        .ok c := ⟨_, rfl⟩
  have h := user_port_precedence dflt0 ssh5 (("admin@h").data)
    none none none none none none c hok
  constructor
  · rw [hok]
    simp only [Except.map]
    rw [h.2.1 rfl (("admin").data) (by decide) (by decide)]
  · rw [hok]
    simp only [Except.map]
    rw [h.2.2.2.2.2.2.1 rfl (by decide) (("2200").data) 2200 (by decide)
      (by decide)]

/-- An ssh-config table giving the host h a proxyjump directive. -/
def ssh6 : Str → SSHConfigEntry := fun h =>
  if h = ("h").data then { proxyjump := some (("jump").data) } else {}

/-- C6: the stored gateway is the explicit argument when one is given,
otherwise the value derived from the ssh-config proxyjump or proxycommand
directive when present, otherwise null; the explicit disable sentinel
always wins and the gateway it stores is a no-op (its effective value is
null), overriding any configured gateway (`connection.py` line 306, the
spec-modelled `get_gateway`, and the disable semantics of the constructor
docstring). -/
theorem gateway_resolution
    (dflt : FabricData) (dsh : Str → SSHConfigEntry) (host0 : Str)
    (user : Option Str) (port : Option Nat) (config : Option ConfigObj)
    (gw : Option GatewayVal) (fa : Option Bool) (ct : Option Nat) (c : Conn)
    (hok : resolve dflt dsh host0 user port config gw fa ct = .ok c) :
    (∀ g, gw = some g → c.gateway = some g) ∧
    (gw = none → c.gateway = get_gateway
      ((normalizeConfig dflt dsh config).sshLookup (derive_shorthand host0).host)) ∧
    (gw = some .disable → effectiveGateway c.gateway = none) ∧
    (∀ e pj, e.proxyjump = some pj → get_gateway e = some (.conn pj)) ∧
    (∀ e pc, e.proxyjump = none → e.proxycommand = some pc →
      get_gateway e = some (.cmd pc)) ∧
    (∀ e, e.proxyjump = none → e.proxycommand = none → get_gateway e = none) := by
  obtain ⟨u', p', rp, rf, rc, -, -, -, -, -, hc⟩ := resolve_ok_inv hok
  subst hc
  refine ⟨?_, ?_, ?_, ?_, ?_, ?_⟩
  · intro g h
    subst h
    rfl
  · intro h
    subst h
    rfl
  · intro h
    subst h
    rfl
  · intro e pj h
    simp [get_gateway, h]
  · intro e pc h1 h2
    simp [get_gateway, h1, h2]
  · intro e h1 h2
    simp [get_gateway, h1, h2]

theorem gateway_resolution_witness :
    (resolve dflt0 ssh6 (("h").data) none none none (some .disable) none
        none).map (fun c => effectiveGateway c.gateway) = Except.ok none ∧
    (resolve dflt0 ssh6 (("h").data) none none none none none none).map
        Conn.gateway = Except.ok (some (.conn (("jump").data))) := by
  constructor
  · obtain ⟨c, hok⟩ : ∃ c,
        resolve dflt0 ssh6 (("h").data) none none none (some .disable) none
          none = .ok c := ⟨_, rfl⟩
    have h := gateway_resolution dflt0 ssh6 (("h").data) none none none
      (some .disable) none none c hok
    rw [hok]
    simp only [Except.map]
    rw [h.2.2.1 rfl]
  · obtain ⟨c, hok⟩ : ∃ c,
        resolve dflt0 ssh6 (("h").data) none none none none none none =
          .ok c := ⟨_, rfl⟩
    have h := gateway_resolution dflt0 ssh6 (("h").data) none none none
      none none none c hok
    rw [hok]
    simp only [Except.map]
    rw [h.2.1 rfl]
    rfl

/-- C7: calling open on an already-open lifecycle returns it unchanged (no
second handshake is performed, only the first call in a row does work), and
calling close on an already-closed lifecycle is a no-op; both operations
are idempotent. -/
theorem open_close_idempotent (s : Lifecycle) :
    (s.opened = true → lcOpen s = s) ∧
    lcOpen (lcOpen s) = lcOpen s ∧
    (lcOpen (lcOpen s)).handshakes = (lcOpen s).handshakes ∧
    (s.opened = false → lcClose s = s) ∧
    lcClose (lcClose s) = lcClose s := by
  refine ⟨?_, ?_, ?_, ?_, ?_⟩
  · intro h
    simp [lcOpen, h]
  · cases h : s.opened <;> simp [lcOpen, h]
  · cases h : s.opened <;> simp [lcOpen, h]
  · intro h
    simp [lcClose, h]
  · cases h : s.opened <;> simp [lcClose, h]

theorem open_close_idempotent_witness :
    lcOpen { opened := true, handshakes := 1, sftpOpen := true } =
      { opened := true, handshakes := 1, sftpOpen := true } ∧
    lcClose { opened := false, handshakes := 1, sftpOpen := false } =
      { opened := false, handshakes := 1, sftpOpen := false } :=
  ⟨(open_close_idempotent { opened := true, handshakes := 1, sftpOpen := true }).1
      rfl,
   (open_close_idempotent
      { opened := false, handshakes := 1, sftpOpen := false }).2.2.2.1 rfl⟩

theorem workerErrors_eq_filterMap : ∀ (acc : List String) (ws : List WorkerOutcome),
    ws.foldl captureWorker acc =
      acc ++ ws.filterMap (fun w => match w with | .ok => none | .err e => some e)
  | acc, [] => by simp
  | acc, .ok :: ws => by
    simpa [captureWorker] using workerErrors_eq_filterMap acc ws
  | acc, .err e :: ws => by
    simpa [captureWorker] using workerErrors_eq_filterMap (acc ++ [e]) ws

/-- C8: a worker exception is captured rather than propagated where it
occurs (the capture step is a total state update), and when the session is
stopped all captured exceptions are raised together as one aggregate
failure holding the error of every failed worker, not just the first. -/
theorem worker_error_aggregation (ws : List WorkerOutcome) :
    (workerErrors ws = [] → stopForward ws = .ok ()) ∧
    (workerErrors ws ≠ [] → stopForward ws = .error (workerErrors ws)) ∧
    (∀ e, WorkerOutcome.err e ∈ ws ↔ e ∈ workerErrors ws) := by
  refine ⟨?_, ?_, ?_⟩
  · intro h
    simp [stopForward, h]
  · intro h
    cases hc : workerErrors ws with
    | nil => exact absurd hc h
    | cons a t =>
      simp [stopForward, hc]
  · intro e
    unfold workerErrors
    rw [workerErrors_eq_filterMap]
    simp only [List.nil_append, List.mem_filterMap]
    constructor
    · intro h
      exact ⟨.err e, h, rfl⟩
    · rintro ⟨a, ha, hfa⟩
      cases a with
      | ok => simp at hfa
      | err e2 =>
        simp only at hfa
        injection hfa with hfa
        subst hfa
        exact ha

theorem worker_error_aggregation_witness :
    stopForward [.ok, .err "boom", .ok, .err "crash"] =
      .error ["boom", "crash"] ∧
    ("crash" ∈ workerErrors [.ok, .err "boom", .ok, .err "crash"]) :=
  ⟨(worker_error_aggregation [.ok, .err "boom", .ok, .err "crash"]).2.1
      (by decide),
   (worker_error_aggregation [.ok, .err "boom", .ok, .err "crash"]).2.2
      "crash" |>.mp (by decide)⟩

/-- An ssh-config table giving the host h a forwardagent directive whose
value is neither yes nor no. -/
def ssh9 : Str → SSHConfigEntry := fun h =>
  if h = ("h").data then { forwardagent := some (("maybe").data) } else {}

/-- C9: when no explicit forward_agent argument is given and the ssh-config
lookup carries a forwardagent directive whose value is neither yes nor no,
construction raises `KeyError` (`connection.py` lines 307-312: the
directive-to-boolean map is defined only on those two strings); stated for
calls whose earlier resolution steps pass (no explicit user or port
argument, and a port fallback that succeeds). -/
theorem forwardagent_partial_map
    (dflt : FabricData) (dsh : Str → SSHConfigEntry) (host0 : Str)
    (config : Option ConfigObj) (gw : Option GatewayVal) (ct : Option Nat)
    (s : Str) (n : Nat)
    (hdir : ((normalizeConfig dflt dsh config).sshLookup
        (derive_shorthand host0).host).forwardagent = some s)
    (hys : s ≠ ("yes").data) (hns : s ≠ ("no").data)
    (hrp : resolvePort (derive_shorthand host0).port
        ((normalizeConfig dflt dsh config).sshLookup (derive_shorthand host0).host)
        (normalizeConfig dflt dsh config).data = .ok n) :
    resolve dflt dsh host0 none none config gw none ct =
      .error (.keyError s) := by
  simp [resolve, mergeShorthand_none_right, hrp, resolveForwardAgent, hdir,
    hys, hns]

theorem forwardagent_partial_map_witness :
    resolve dflt0 ssh9 (("h").data) none none none none none none =
      .error (.keyError (("maybe").data)) :=
  forwardagent_partial_map dflt0 ssh9 (("h").data) none none none
    (("maybe").data) 22 (by decide) (by decide) (by decide) rfl

/-- A concrete set of invoke-level defaults distinct from dflt0. -/
def dInv : FabricData :=
  { user := ("invokeuser").data, port := 2022, forward_agent := true,
    connect_timeout := some 7 }

/-- C10: after every successful construction the connection's config object
is an instance of fabric's Config subclass: a null config argument produces
a fresh fabric Config carrying the ambient defaults, a plain invoke config
is cloned into a fabric Config (keeping its defaults, with a fresh empty
ssh table) before resolution uses it, and the config stored on the resolved
state is exactly the normalized one (`connection.py` lines 282-287,
`config.py` lines 95-108). -/
theorem config_normalized_to_fabric (dflt : FabricData)
    (dsh : Str → SSHConfigEntry) :
    (∀ arg, (normalizeConfig dflt dsh arg).isFabric = true) ∧
    normalizeConfig dflt dsh none = .fabric dflt dsh ∧
    (∀ d, normalizeConfig dflt dsh (some (.invoke d)) = .fabric d emptySsh) ∧
    (∀ host0 user port config gw fa ct c,
      resolve dflt dsh host0 user port config gw fa ct = .ok c →
      c.config = normalizeConfig dflt dsh config ∧
        c.config.isFabric = true) := by
  have hfab : ∀ arg, (normalizeConfig dflt dsh arg).isFabric = true := by
    intro arg
    rcases arg with - | cfg
    · rfl
    · cases cfg <;> rfl
  refine ⟨hfab, rfl, fun d => rfl, ?_⟩
  intro host0 user port config gw fa ct c hok
  obtain ⟨u', p', rp, rf, rc, -, -, -, -, -, hc⟩ := resolve_ok_inv hok
  subst hc
  exact ⟨rfl, hfab config⟩

theorem config_normalized_to_fabric_witness :
    (resolve dflt0 emptySsh (("h").data) none none (some (.invoke dInv)) none
        none none).map (fun c => c.config.isFabric) = Except.ok true ∧
    (resolve dflt0 emptySsh (("h").data) none none (some (.invoke dInv)) none
        none none).map Conn.port = Except.ok 2022 := by
  obtain ⟨c, hok⟩ : ∃ c,
      resolve dflt0 emptySsh (("h").data) none none (some (.invoke dInv))
        none none none = .ok c := ⟨_, rfl⟩
  have h := (config_normalized_to_fabric dflt0 emptySsh).2.2.2
    (("h").data) none none (some (.invoke dInv)) none none none c hok
  refine ⟨?_, by rfl⟩
  rw [hok]
  simp [Except.map, h.2]

end Fabric
